import Mathlib

/-!
Shallow embedding of `src/core/character/advanced_emotions.py`, the Affective
Cognition Engine.  Python floats are modelled as rationals `ℚ`; Euclidean
distance is represented through the squared distance `distSq`, with
`Real.sqrt` applied at the statement level (`distance_to`).  Timestamps and
the bounded affect history are omitted: no claim refers to them, and `decay`
is modelled with an explicit `seconds_elapsed` argument (the Python code
derives it from a stored timestamp only when the caller omits it).
-/

namespace AdvancedEmotions

/-- Core affect dimensions (Russell circumplex model), `AffectiveDimensions`
in the source.  Each axis is documented in the source as ranging over
`[-1, 1]`. -/
structure AffectiveDimensions where
  valence : ℚ := 0
  arousal : ℚ := 0
  dominance : ℚ := 0
deriving DecidableEq

/-- Linear interpolation of two affect vectors (`AffectiveDimensions.blend`).
The source performs no clamping here. -/
def AffectiveDimensions.blend (self other : AffectiveDimensions) (weight : ℚ) :
    AffectiveDimensions :=
  ⟨self.valence * (1 - weight) + other.valence * weight,
   self.arousal * (1 - weight) + other.arousal * weight,
   self.dominance * (1 - weight) + other.dominance * weight⟩

/-- Squared Euclidean distance between two affect vectors; the source's
`distance_to` is the square root of this quantity. -/
def distSq (a b : AffectiveDimensions) : ℚ :=
  (a.valence - b.valence) ^ 2 + (a.arousal - b.arousal) ^ 2 +
    (a.dominance - b.dominance) ^ 2

/-- Euclidean distance in affect space (`AffectiveDimensions.distance_to`). -/
noncomputable def distance_to (a b : AffectiveDimensions) : ℝ :=
  Real.sqrt (distSq a b)

/-- Homeostatic step toward a baseline (`AffectiveDimensions.decay_toward`).
The source performs no clamping here. -/
def AffectiveDimensions.decay_toward (self baseline : AffectiveDimensions)
    (rate : ℚ) : AffectiveDimensions :=
  ⟨self.valence + (baseline.valence - self.valence) * rate,
   self.arousal + (baseline.arousal - self.arousal) * rate,
   self.dominance + (baseline.dominance - self.dominance) * rate⟩

/-- Predicate: all three affect axes lie in the declared interval `[-1, 1]`. -/
def inBounds (d : AffectiveDimensions) : Prop :=
  -1 ≤ d.valence ∧ d.valence ≤ 1 ∧ -1 ≤ d.arousal ∧ d.arousal ≤ 1 ∧
    -1 ≤ d.dominance ∧ d.dominance ≤ 1

instance (d : AffectiveDimensions) : Decidable (inBounds d) := by
  unfold inBounds; infer_instance

/-- Panksepp's seven primary affective systems. -/
inductive AffectiveSystem where
  | SEEKING | RAGE | FEAR | LUST | CARE | PANIC_GRIEF | PLAY
deriving DecidableEq, Fintype

/-- Static mapping of affective systems to dimensional coordinates
(`SYSTEM_DIMENSIONS`). -/
def SYSTEM_DIMENSIONS : AffectiveSystem → AffectiveDimensions
  | .SEEKING => ⟨0.5, 0.6, 0.4⟩
  | .RAGE => ⟨-0.7, 0.9, 0.6⟩
  | .FEAR => ⟨-0.8, 0.7, -0.6⟩
  | .LUST => ⟨0.6, 0.7, 0.2⟩
  | .CARE => ⟨0.7, 0.2, 0.3⟩
  | .PANIC_GRIEF => ⟨-0.8, 0.4, -0.7⟩
  | .PLAY => ⟨0.8, 0.6, 0.3⟩

/-- Iteration order of the `system_activations` dictionary: the seven systems
in declaration order (the Python dict is populated from the enum). -/
def systemsList : List AffectiveSystem :=
  [.SEEKING, .RAGE, .FEAR, .LUST, .CARE, .PANIC_GRIEF, .PLAY]

/-- Cognitive appraisal of a stimulus (`AppraisalResult`), ten axes with
default value `0`. -/
structure AppraisalResult where
  novelty : ℚ := 0
  pleasantness : ℚ := 0
  goal_relevance : ℚ := 0
  goal_conduciveness : ℚ := 0
  urgency : ℚ := 0
  control : ℚ := 0
  power : ℚ := 0
  adjustment : ℚ := 0
  internal_standards : ℚ := 0
  external_standards : ℚ := 0
deriving DecidableEq

/-- The all-zero appraisal, the value of `AppraisalResult()` in Python. -/
def zeroAppraisal : AppraisalResult := {}

/-- Clamp a rational into `[-1, 1]`, written `max(-1, min(1, v))` in the
source. -/
def clamp1 (x : ℚ) : ℚ := max (-1) (min 1 x)

/-- Conversion of an appraisal into an affect target
(`AppraisalResult.to_dimensions`). -/
def AppraisalResult.to_dimensions (self : AppraisalResult) : AffectiveDimensions :=
  ⟨clamp1 ((self.pleasantness + self.goal_conduciveness) / 2),
   clamp1 ((self.novelty + self.urgency + self.goal_relevance) / 3),
   clamp1 ((self.control + self.power) / 2)⟩

/-- Emotion categories (`EmotionLabel`), 36 variants. -/
inductive EmotionLabel where
  | EXCITEMENT | JOY | ENTHUSIASM | DELIGHT
  | CONTENTMENT | SERENITY | CALM | PEACE
  | ANGER | FEAR | ANXIETY | FRUSTRATION | PANIC
  | SADNESS | MELANCHOLY | GRIEF | DESPAIR | BOREDOM
  | LOVE | COMPASSION | PRIDE | SHAME | GUILT | CONTEMPT | DISGUST
  | ENVY | JEALOUSY | GRATITUDE | AWE
  | CURIOSITY | INTEREST | SURPRISE | CONFUSION | DETERMINATION | HOPE
  | NEUTRAL
deriving DecidableEq, Fintype

/-- Static coordinates of the emotion labels (`EMOTION_COORDINATES`), as an
ordered association list mirroring the insertion order of the Python dict. -/
def EMOTION_COORDINATES : List (EmotionLabel × AffectiveDimensions) :=
  [(.EXCITEMENT, ⟨0.7, 0.8, 0.5⟩),
   (.JOY, ⟨0.8, 0.6, 0.4⟩),
   (.ENTHUSIASM, ⟨0.7, 0.7, 0.6⟩),
   (.DELIGHT, ⟨0.8, 0.5, 0.3⟩),
   (.CONTENTMENT, ⟨0.6, -0.2, 0.3⟩),
   (.SERENITY, ⟨0.7, -0.4, 0.4⟩),
   (.CALM, ⟨0.4, -0.5, 0.3⟩),
   (.PEACE, ⟨0.6, -0.6, 0.5⟩),
   (.ANGER, ⟨-0.6, 0.8, 0.6⟩),
   (.FEAR, ⟨-0.8, 0.7, -0.6⟩),
   (.ANXIETY, ⟨-0.5, 0.6, -0.4⟩),
   (.FRUSTRATION, ⟨-0.5, 0.6, -0.2⟩),
   (.PANIC, ⟨-0.9, 0.9, -0.8⟩),
   (.SADNESS, ⟨-0.6, -0.3, -0.3⟩),
   (.MELANCHOLY, ⟨-0.4, -0.4, -0.2⟩),
   (.GRIEF, ⟨-0.8, 0.2, -0.6⟩),
   (.DESPAIR, ⟨-0.9, -0.2, -0.8⟩),
   (.BOREDOM, ⟨-0.3, -0.6, -0.1⟩),
   (.LOVE, ⟨0.9, 0.4, 0.2⟩),
   (.COMPASSION, ⟨0.6, 0.2, 0.4⟩),
   (.PRIDE, ⟨0.7, 0.4, 0.7⟩),
   (.SHAME, ⟨-0.7, 0.4, -0.6⟩),
   (.GUILT, ⟨-0.6, 0.3, -0.4⟩),
   (.CONTEMPT, ⟨-0.5, 0.2, 0.6⟩),
   (.DISGUST, ⟨-0.7, 0.3, 0.3⟩),
   (.ENVY, ⟨-0.5, 0.4, -0.3⟩),
   (.JEALOUSY, ⟨-0.6, 0.6, -0.2⟩),
   (.GRATITUDE, ⟨0.8, 0.3, -0.1⟩),
   (.AWE, ⟨0.6, 0.5, -0.3⟩),
   (.CURIOSITY, ⟨0.4, 0.5, 0.3⟩),
   (.INTEREST, ⟨0.3, 0.4, 0.2⟩),
   (.SURPRISE, ⟨0.1, 0.7, -0.1⟩),
   (.CONFUSION, ⟨-0.2, 0.4, -0.3⟩),
   (.DETERMINATION, ⟨0.3, 0.6, 0.7⟩),
   (.HOPE, ⟨0.6, 0.3, 0.2⟩),
   (.NEUTRAL, ⟨0.0, 0.0, 0.0⟩)]

/-- One iteration of the nearest-neighbor loop in `get_closest_emotion`.
The accumulator's second component is the running `min_distance`, with
`none` standing for the initial `float('inf')`; comparisons use the squared
distance, which orders exactly as the source's `math.sqrt` distances. -/
def stepMin (dims : AffectiveDimensions) (acc : EmotionLabel × Option ℚ)
    (ec : EmotionLabel × AffectiveDimensions) : EmotionLabel × Option ℚ :=
  match acc.2 with
  | none => (ec.1, some (distSq dims ec.2))
  | some m => if distSq dims ec.2 < m then (ec.1, some (distSq dims ec.2)) else acc

/-- The scan over `EMOTION_COORDINATES` performed by `get_closest_emotion`,
returning the closest label and the minimal squared distance. -/
def closestScan (dims : AffectiveDimensions) : EmotionLabel × Option ℚ :=
  EMOTION_COORDINATES.foldl (stepMin dims) (EmotionLabel.NEUTRAL, none)

/-- Nearest emotion label and confidence (`get_closest_emotion`); the
confidence is `max(0, 1 - min_distance / 2)` with `min_distance` the
Euclidean distance of the closest entry. -/
noncomputable def get_closest_emotion (dims : AffectiveDimensions) :
    EmotionLabel × ℝ :=
  ((closestScan dims).1,
    max 0 (1 - Real.sqrt (((closestScan dims).2.getD 0 : ℚ)) / 2))

/-- Modelled from the spec: the first label in table iteration order whose
Euclidean distance to the input is minimal, together with that minimal
squared distance (ties broken in favor of the earlier entry). -/
def specFirstMin (dims : AffectiveDimensions) :
    List (EmotionLabel × AffectiveDimensions) → Option (EmotionLabel × ℚ)
  | [] => none
  | ec :: rest =>
    match specFirstMin dims rest with
    | none => some (ec.1, distSq dims ec.2)
    | some (e, m) =>
      if distSq dims ec.2 ≤ m then some (ec.1, distSq dims ec.2) else some (e, m)

/-- Combination of a sub-scan result with an accumulator, used to relate
the source's running-minimum loop to `specFirstMin`. -/
def mergeMin (res : Option (EmotionLabel × ℚ)) (e0 : EmotionLabel) (m0 : ℚ) :
    EmotionLabel × Option ℚ :=
  match res with
  | none => (e0, some m0)
  | some (e, m) => if m < m0 then (e, some m) else (e0, some m0)

/-- Test whether `needle` is an initial segment of `hay` (character lists). -/
def leadsWith : List Char → List Char → Bool
  | [], _ => true
  | _ :: _, [] => false
  | a :: as, b :: bs => a == b && leadsWith as bs

/-- Substring test on character lists, modelling Python's `kw in text` for
strings: true iff `needle` occurs contiguously in `hay` (the empty needle
always occurs). -/
def hasSub : List Char → List Char → Bool
  | [], needle => needle.isEmpty
  | c :: t, needle => leadsWith needle (c :: t) || hasSub t needle

/-- ASCII lower-casing of one character, modelling `str.lower()` on the
ASCII inputs the engine receives (pattern keywords are already lowercase). -/
def toLowerChar (c : Char) : Char :=
  if 'A' ≤ c ∧ c ≤ 'Z' then Char.ofNat (c.toNat + 32) else c

/-- Lexical appraisal pattern (`AppraisalPattern`): keywords, partial effect
map (absent appraisal fields are `0`, matching `dict.get(k, 0)` semantics),
and an optionally triggered affective system. -/
structure AppraisalPattern where
  keywords : List (List Char)
  appraisal_effects : AppraisalResult
  system_activation : Option AffectiveSystem := none

/-- Apostrophe character, used inside a few pattern keywords. -/
def apos : Char := Char.ofNat 39

/-- Number of pattern keywords occurring in the lowered message, the
source's `sum(1 for kw in pattern.keywords if kw in message_lower)`. -/
def countMatches (p : AppraisalPattern) (msgLower : List Char) : Nat :=
  p.keywords.countP (fun kw => hasSub msgLower kw)

/-- SEEKING pattern (curiosity, exploration). -/
def patternSeeking : AppraisalPattern :=
  { keywords := ["tell me".data, "what".data, "why".data, "how".data,
      "explain".data, "curious".data, "wonder".data, "interesting".data,
      "discover".data, "explore".data, "learn".data, "understand".data,
      "dimmi".data, "cosa".data, "perché".data, "come".data, "spiega".data,
      "curioso".data],
    appraisal_effects := { novelty := 0.5, goal_relevance := 0.6, pleasantness := 0.3 },
    system_activation := some .SEEKING }

/-- RAGE pattern (frustration, blocked goals). -/
def patternRage : AppraisalPattern :=
  { keywords := ["angry".data, "furious".data, "hate".data, "unfair".data,
      "frustrating".data, "annoying".data, "enemy".data, "betrayed".data,
      "cheated".data, "stolen".data, "injustice".data, "arrabbiato".data,
      "odio".data, "ingiusto".data, "tradito".data, "nemico".data],
    appraisal_effects := { pleasantness := -0.7, goal_conduciveness := -0.8,
                           urgency := 0.6, power := 0.4 },
    system_activation := some .RAGE }

/-- FEAR pattern (threat, danger). -/
def patternFear : AppraisalPattern :=
  { keywords := ["danger".data, "threat".data, "afraid".data, "scared".data,
      "terrified".data, "attack".data, "enemy".data, "death".data, "kill".data,
      "destroy".data, "monster".data, "dark".data, "pericolo".data,
      "paura".data, "minaccia".data, "morte".data, "attacco".data],
    appraisal_effects := { pleasantness := -0.8, urgency := 0.8, control := -0.5,
                           goal_conduciveness := -0.6 },
    system_activation := some .FEAR }

/-- CARE pattern (nurturing, attachment). -/
def patternCare : AppraisalPattern :=
  { keywords := ["help".data, "protect".data, "care".data, "love".data,
      "friend".data, "family".data, "child".data, "safe".data, "comfort".data,
      "support".data, "together".data, "trust".data, "aiuto".data,
      "proteggere".data, "amore".data, "amico".data, "famiglia".data],
    appraisal_effects := { pleasantness := 0.7, goal_relevance := 0.6,
                           internal_standards := 0.5 },
    system_activation := some .CARE }

/-- PANIC/GRIEF pattern (loss, separation). -/
def patternPanicGrief : AppraisalPattern :=
  { keywords := ["lost".data, "gone".data, "died".data, "death".data,
      "miss".data, "alone".data, "lonely".data, "abandoned".data, "left".data,
      "goodbye".data, "never".data, "farewell".data, "perso".data,
      "morto".data, "solo".data, "addio".data, "abbandonato".data],
    appraisal_effects := { pleasantness := -0.8, goal_conduciveness := -0.7,
                           control := -0.6, adjustment := -0.5 },
    system_activation := some .PANIC_GRIEF }

/-- PLAY pattern (joy, humor). -/
def patternPlay : AppraisalPattern :=
  { keywords := ["fun".data, "play".data, "game".data, "joke".data,
      "laugh".data, "happy".data, "joy".data, "party".data, "celebrate".data,
      "dance".data, "sing".data, "wonderful".data, "amazing".data,
      "great".data, "fantastic".data, "awesome".data, "brilliant".data,
      "lovely".data, "beautiful".data, "divertente".data, "gioco".data,
      "ridere".data, "felice".data, "festa".data, "bello".data,
      "fantastico".data, "meraviglioso".data, "stupendo".data,
      "magnifico".data],
    appraisal_effects := { pleasantness := 0.9, novelty := 0.4, control := 0.5,
                           goal_conduciveness := 0.6 },
    system_activation := some .PLAY }

/-- Gratitude pattern. -/
def patternGratitude : AppraisalPattern :=
  { keywords := ["thank".data, "grateful".data, "appreciate".data,
      "thanks".data, "blessing".data, "grazie".data, "grato".data,
      "apprezzo".data, "benedizione".data, "gentile".data, "kind".data,
      "generous".data, "thoughtful".data],
    appraisal_effects := { pleasantness := 0.8, external_standards := 0.6,
                           goal_conduciveness := 0.5, internal_standards := 0.4 },
    system_activation := some .CARE }

/-- Hope pattern. -/
def patternHope : AppraisalPattern :=
  { keywords := ["hope".data, "maybe".data, "possible".data, "future".data,
      "better".data, "tomorrow".data, "chance".data, "opportunity".data,
      "dream".data, "wish".data, "speranza".data, "forse".data, "futuro".data,
      "domani".data, "sogno".data],
    appraisal_effects := { pleasantness := 0.6, goal_conduciveness := 0.5,
                           adjustment := 0.5 },
    system_activation := some .SEEKING }

/-- Shame/Guilt pattern (no triggered system). -/
def patternShameGuilt : AppraisalPattern :=
  { keywords := ["sorry".data, "apologize".data, "fault".data, "mistake".data,
      "wrong".data, "failed".data, "ashamed".data, "embarrassed".data,
      "regret".data, "scusa".data, "errore".data, "sbagliato".data,
      "vergogna".data, "colpa".data],
    appraisal_effects := { pleasantness := -0.5, internal_standards := -0.6,
                           external_standards := -0.5, control := -0.3 },
    system_activation := none }

/-- Pride pattern. -/
def patternPride : AppraisalPattern :=
  { keywords := ["proud".data, "accomplished".data, "achieved".data,
      "success".data, "won".data, "victory".data, "best".data,
      "excellent".data, "mastered".data, "hero".data, "well done".data,
      "bravo".data, "orgoglioso".data, "successo".data, "vittoria".data,
      "eroe".data, "campione".data, "complimenti".data, "bravissimo".data],
    appraisal_effects := { pleasantness := 0.8, internal_standards := 0.8,
                           power := 0.7, control := 0.6 },
    system_activation := some .PLAY }

/-- Surprise pattern. -/
def patternSurprise : AppraisalPattern :=
  { keywords := ["surprise".data, "unexpected".data, "sudden".data,
      "shocking".data, "unbelievable".data, "wow".data, "amazing".data,
      "incredible".data, "really".data, "sorpresa".data, "improvviso".data,
      "incredibile".data, "davvero".data],
    appraisal_effects := { novelty := 0.9, urgency := 0.4 },
    system_activation := some .SEEKING }

/-- Friendly-greetings pattern. -/
def patternGreetings : AppraisalPattern :=
  { keywords := ["hello".data, "hi".data, "hey".data, "good morning".data,
      "good evening".data, "greetings".data, "welcome".data,
      "nice to meet".data, "pleasure".data, "good to see".data, "ciao".data,
      "salve".data, "buongiorno".data, "buonasera".data, "piacere".data,
      "benvenuto".data, "come stai".data, "come va".data],
    appraisal_effects := { pleasantness := 0.6, external_standards := 0.4,
                           goal_conduciveness := 0.3 },
    system_activation := some .PLAY }

/-- Compliments pattern. -/
def patternCompliments : AppraisalPattern :=
  { keywords := [("you".data ++ apos :: "re great".data),
      ("you".data ++ apos :: "re amazing".data), "impressive".data,
      "admire".data, "respect".data, "wise".data, "smart".data,
      "clever".data, "talented".data, "skilled".data, "powerful".data,
      "strong".data, "beautiful".data, "magnificent".data, "noble".data,
      "sei grande".data, "sei fantastico".data, "ammiro".data,
      "rispetto".data, "saggio".data, "intelligente".data, "bravo".data,
      "forte".data, "potente".data],
    appraisal_effects := { pleasantness := 0.85, internal_standards := 0.7,
                           power := 0.5, external_standards := 0.6 },
    system_activation := some .PLAY }

/-- Agreement pattern. -/
def patternAgreement : AppraisalPattern :=
  { keywords := ["yes".data, "agree".data, "right".data, "true".data,
      "correct".data, "exactly".data, "indeed".data, "absolutely".data,
      "of course".data, "certainly".data, "sì".data, "giusto".data,
      "vero".data, "esatto".data, "certo".data, "certamente".data,
      "proprio così".data, "hai ragione".data, "concordo".data],
    appraisal_effects := { pleasantness := 0.5, goal_conduciveness := 0.4,
                           external_standards := 0.3 },
    system_activation := some .CARE }

/-- Positive-interest pattern. -/
def patternInterest : AppraisalPattern :=
  { keywords := ["tell me more".data, "fascinating".data, "intriguing".data,
      "love to hear".data, "want to know".data, "sounds good".data,
      "sounds great".data, "exciting".data, "raccontami".data,
      "affascinante".data, "interessante".data, "vorrei sapere".data,
      "mi piace".data, "che bello".data, "entusiasmante".data],
    appraisal_effects := { pleasantness := 0.6, novelty := 0.5,
                           goal_relevance := 0.5, goal_conduciveness := 0.4 },
    system_activation := some .SEEKING }

/-- Adventure pattern. -/
def patternAdventure : AppraisalPattern :=
  { keywords := ["adventure".data, "quest".data, "journey".data,
      "mission".data, ("let".data ++ apos :: "s go".data), "ready".data,
      "brave".data, "courage".data, "together".data, "allies".data,
      "avventura".data, "missione".data, "viaggio".data, "andiamo".data,
      "pronti".data, "coraggio".data, "insieme".data, "alleati".data,
      "compagni".data],
    appraisal_effects := { pleasantness := 0.7, goal_relevance := 0.7,
                           goal_conduciveness := 0.6, power := 0.5 },
    system_activation := some .SEEKING }

/-- Peace/tranquillity pattern. -/
def patternPeace : AppraisalPattern :=
  { keywords := ["peace".data, "calm".data, "quiet".data, "rest".data,
      "relax".data, "serene".data, "tranquil".data, "pace".data,
      "calma".data, "tranquillo".data, "riposo".data, "sereno".data,
      "rilassante".data, "quiete".data, "armonia".data],
    appraisal_effects := { pleasantness := 0.6, control := 0.5,
                           adjustment := 0.5, urgency := -0.4 },
    system_activation := some .CARE }

/-- Stories / narrative-engagement pattern. -/
def patternStories : AppraisalPattern :=
  { keywords := ["story".data, "tale".data, "legend".data, "once upon".data,
      "long ago".data, "tell".data, "storia".data, "racconto".data,
      "leggenda".data, ("c".data ++ apos :: "era una volta".data),
      "narra".data, "racconta".data],
    appraisal_effects := { pleasantness := 0.5, novelty := 0.6,
                           goal_relevance := 0.4 },
    system_activation := some .SEEKING }

/-- The static pattern table (`APPRAISAL_PATTERNS`), in source order. -/
def APPRAISAL_PATTERNS : List AppraisalPattern :=
  [patternSeeking, patternRage, patternFear, patternCare, patternPanicGrief,
   patternPlay, patternGratitude, patternHope, patternShameGuilt,
   patternPride, patternSurprise, patternGreetings, patternCompliments,
   patternAgreement, patternInterest, patternAdventure, patternPeace,
   patternStories]

/-- The mutable emotional state (`AdvancedEmotionalState`).  The Python
`system_activations` dict always holds exactly the seven system keys, so it
is modelled as a total function; `last_update` and the bounded
`affect_history` are omitted (no claim mentions them).  Default values
mirror the pydantic field defaults and `__init__`. -/
structure AdvancedEmotionalState where
  character_id : String
  current_affect : AffectiveDimensions := {}
  baseline_affect : AffectiveDimensions := {}
  system_activations : AffectiveSystem → ℚ := fun _ => 0
  last_appraisal : Option AppraisalResult := none
  emotional_inertia : ℚ := 0.3

/-- Momentum-based activation of one affective system
(`AdvancedEmotionalState._activate_system`). -/
def AdvancedEmotionalState.activate_system (s : AdvancedEmotionalState)
    (system : AffectiveSystem) (intensity : ℚ) : AdvancedEmotionalState :=
  let current := s.system_activations system
  let new_value := current + (intensity - current) * (1 - s.emotional_inertia)
  { s with system_activations := fun sys =>
      if sys = system then max 0 (min 1 new_value) else s.system_activations sys }

/-- Field-wise accumulation `appraisal.dim += effect * weight` over the ten
appraisal axes (the Python loop over `pattern.appraisal_effects.items()`;
axes absent from the effect map have effect `0`). -/
def addEffects (ap eff : AppraisalResult) (w : ℚ) : AppraisalResult :=
  ⟨ap.novelty + eff.novelty * w,
   ap.pleasantness + eff.pleasantness * w,
   ap.goal_relevance + eff.goal_relevance * w,
   ap.goal_conduciveness + eff.goal_conduciveness * w,
   ap.urgency + eff.urgency * w,
   ap.control + eff.control * w,
   ap.power + eff.power * w,
   ap.adjustment + eff.adjustment * w,
   ap.internal_standards + eff.internal_standards * w,
   ap.external_standards + eff.external_standards * w⟩

/-- Final clamping of every appraisal field to `[-1, 1]` performed at the
end of `appraise_message`. -/
def clampAppraisal (ap : AppraisalResult) : AppraisalResult :=
  ⟨clamp1 ap.novelty, clamp1 ap.pleasantness, clamp1 ap.goal_relevance,
   clamp1 ap.goal_conduciveness, clamp1 ap.urgency, clamp1 ap.control,
   clamp1 ap.power, clamp1 ap.adjustment, clamp1 ap.internal_standards,
   clamp1 ap.external_standards⟩

/-- Processing of a single pattern inside the `appraise_message` loop:
match counting, weight computation with the 1.8x negativity amplification,
effect accumulation, and system activation (x0.5, and x1.5 for the negative
systems RAGE, FEAR, PANIC_GRIEF). -/
def applyPattern (msgLower : List Char)
    (acc : AdvancedEmotionalState × AppraisalResult) (p : AppraisalPattern) :
    AdvancedEmotionalState × AppraisalResult :=
  let m := countMatches p msgLower
  if 0 < m then
    let weight0 : ℚ := min 1 ((m : ℚ) * 0.3)
    let is_negative_pattern :=
      p.appraisal_effects.pleasantness < -0.3 ∨
        p.appraisal_effects.goal_conduciveness < -0.3
    let weight := if is_negative_pattern then weight0 * 1.8 else weight0
    let ap := addEffects acc.2 p.appraisal_effects weight
    let st :=
      match p.system_activation with
      | some sys =>
        let sw0 := weight * 0.5
        let sw := if sys = .RAGE ∨ sys = .FEAR ∨ sys = .PANIC_GRIEF
                  then sw0 * 1.5 else sw0
        acc.1.activate_system sys sw
      | none => acc.1
    (st, ap)
  else acc

/-- Cognitive appraisal of a message
(`AdvancedEmotionalState.appraise_message`): lower-case the text, fold the
pattern table, clamp every field, store `last_appraisal`, and return the
new state together with the appraisal. -/
def AdvancedEmotionalState.appraise_message (s : AdvancedEmotionalState)
    (message : String) : AdvancedEmotionalState × AppraisalResult :=
  let msgLower := message.data.map toLowerChar
  let scanned := APPRAISAL_PATTERNS.foldl (applyPattern msgLower) (s, zeroAppraisal)
  let appraisal := clampAppraisal scanned.2
  ({ scanned.1 with last_appraisal := some appraisal }, appraisal)

/-- Activation-weighted average of the coordinates of all systems whose
activation exceeds `0.1` (the system-influence computation in
`update_affect`); when the total activation is not positive the
accumulated sums are left unnormalized, exactly as in the source. -/
def systemInfluence (acts : AffectiveSystem → ℚ) : AffectiveDimensions :=
  let active := systemsList.filter (fun sys => 0.1 < acts sys)
  let total := (active.map acts).sum
  let sumV := (active.map (fun sys => (SYSTEM_DIMENSIONS sys).valence * acts sys)).sum
  let sumA := (active.map (fun sys => (SYSTEM_DIMENSIONS sys).arousal * acts sys)).sum
  let sumD := (active.map (fun sys => (SYSTEM_DIMENSIONS sys).dominance * acts sys)).sum
  if 0 < total then ⟨sumV / total, sumA / total, sumD / total⟩
  else ⟨sumV, sumA, sumD⟩

/-- Emotional-contamination multiplier applied to the transition resistance
in `update_affect`: x0.4 for a negative-to-positive attempt, x1.3 for a
positive-to-negative one. -/
def resistanceFactor (current_valence target_valence : ℚ) : ℚ :=
  if current_valence < -0.3 ∧ 0 < target_valence then 0.4
  else if 0.3 < current_valence ∧ target_valence < 0 then 1.3
  else 1

/-- Integration of an appraisal into core affect
(`AdvancedEmotionalState.update_affect`): blend the appraisal target with
the system influence at weight `0.4`, scale the transition resistance
`1 - emotional_inertia` by the contamination factor, cap it at `1.0`, and
blend the current affect toward the combined target. -/
def AdvancedEmotionalState.update_affect (s : AdvancedEmotionalState)
    (appraisal : AppraisalResult) : AdvancedEmotionalState :=
  let target := appraisal.to_dimensions
  let combined_target := target.blend (systemInfluence s.system_activations) 0.4
  let transition_resistance :=
    (1 - s.emotional_inertia) *
      resistanceFactor s.current_affect.valence combined_target.valence
  { s with current_affect :=
      s.current_affect.blend combined_target (min 1 transition_resistance) }

/-- Per-system decay multiplier applied to `decay_rate`: the negative
systems RAGE/FEAR/PANIC_GRIEF decay at half rate, PLAY/CARE at full rate,
and the remaining systems (SEEKING, LUST) at 0.8 rate. -/
def decayFactor : AffectiveSystem → ℚ
  | .RAGE => 0.5
  | .FEAR => 0.5
  | .PANIC_GRIEF => 0.5
  | .PLAY => 1
  | .CARE => 1
  | _ => 0.8

/-- Homeostatic decay (`AdvancedEmotionalState.decay`) with an explicit
elapsed-seconds argument: valence-dependent rate selection (slower for
negative states, scaled down further by positive arousal; faster for
positive states), affect decay toward baseline, and per-system activation
decay. -/
def AdvancedEmotionalState.decay (s : AdvancedEmotionalState)
    (seconds_elapsed : ℚ) : AdvancedEmotionalState :=
  let base_decay_rate : ℚ := 0.05 * (seconds_elapsed / 60)
  let decay_rate :=
    if s.current_affect.valence < -0.2 then
      base_decay_rate * 0.4 / (1 + max 0 s.current_affect.arousal * 0.5)
    else if 0.2 < s.current_affect.valence then
      base_decay_rate * 1.5
    else base_decay_rate
  { s with
    current_affect := s.current_affect.decay_toward s.baseline_affect decay_rate,
    system_activations := fun sys =>
      s.system_activations sys * (1 - decay_rate * decayFactor sys) }

/-- Factory (`create_advanced_emotional_state`).  Construction runs the
pydantic field validation: `emotional_inertia` is declared with
`Field(ge=0.0, le=1.0)` and is rejected outside `[0, 1]`; the baseline
affect components carry no constraint and are stored unchanged.  The
Python defaults are `baseline_valence=0.15`, `baseline_arousal=0.1`,
`baseline_dominance=0.0`, `emotional_inertia=0.25`. -/
def create_advanced_emotional_state (character_id : String)
    (baseline_valence baseline_arousal baseline_dominance emotional_inertia : ℚ) :
    Except String AdvancedEmotionalState :=
  if 0 ≤ emotional_inertia ∧ emotional_inertia ≤ 1 then
    .ok { character_id := character_id,
          current_affect := ⟨baseline_valence, baseline_arousal, baseline_dominance⟩,
          baseline_affect := ⟨baseline_valence, baseline_arousal, baseline_dominance⟩,
          emotional_inertia := emotional_inertia }
  else .error "emotional_inertia outside [0, 1]"

/-- The Scenario A stimulus text. -/
def scenarioAMessage : String := "Thank you so much, I am so grateful"

/-- A freshly created default state (zero affect and activations, inertia
`0.3`), used as a concrete evaluation point. -/
def freshState : AdvancedEmotionalState := { character_id := "c" }

/-- A concrete in-bounds state (valence 1, zero baseline, CARE activation
0.5) used to evaluate `decay` at a large elapsed time. -/
def overshootState : AdvancedEmotionalState :=
  { character_id := "c", current_affect := ⟨1, 0, 0⟩,
    system_activations := fun sys => if sys = .CARE then 0.5 else 0,
    emotional_inertia := 0.25 }

end AdvancedEmotions

namespace AdvancedEmotions

/-! ### General lemmas about the embedded operations -/

/-- Clamping always lands in `[-1, 1]`. -/
theorem clamp1_mem (x : ℚ) : -1 ≤ clamp1 x ∧ clamp1 x ≤ 1 := by
  unfold clamp1
  exact ⟨le_max_left _ _, max_le (by norm_num) (min_le_left _ _)⟩

/-- A convex combination of two points of `[-1, 1]` stays in `[-1, 1]`. -/
theorem convex_mem {x y w : ℚ} (hx1 : -1 ≤ x) (hx2 : x ≤ 1) (hy1 : -1 ≤ y)
    (hy2 : y ≤ 1) (hw0 : 0 ≤ w) (hw1 : w ≤ 1) :
    -1 ≤ x * (1 - w) + y * w ∧ x * (1 - w) + y * w ≤ 1 := by
  constructor <;> nlinarith

/-- `blend` with a weight in `[0, 1]` preserves the affect bounds. -/
theorem blend_inBounds {x y : AffectiveDimensions} {w : ℚ}
    (hx : inBounds x) (hy : inBounds y) (hw0 : 0 ≤ w) (hw1 : w ≤ 1) :
    inBounds (x.blend y w) := by
  obtain ⟨hx1, hx2, hx3, hx4, hx5, hx6⟩ := hx
  obtain ⟨hy1, hy2, hy3, hy4, hy5, hy6⟩ := hy
  unfold AffectiveDimensions.blend inBounds
  dsimp only
  exact ⟨(convex_mem hx1 hx2 hy1 hy2 hw0 hw1).1,
         (convex_mem hx1 hx2 hy1 hy2 hw0 hw1).2,
         (convex_mem hx3 hx4 hy3 hy4 hw0 hw1).1,
         (convex_mem hx3 hx4 hy3 hy4 hw0 hw1).2,
         (convex_mem hx5 hx6 hy5 hy6 hw0 hw1).1,
         (convex_mem hx5 hx6 hy5 hy6 hw0 hw1).2⟩

/-- `decay_toward` with a rate in `[0, 1]` preserves the affect bounds. -/
theorem decay_toward_inBounds {x y : AffectiveDimensions} {r : ℚ}
    (hx : inBounds x) (hy : inBounds y) (hr0 : 0 ≤ r) (hr1 : r ≤ 1) :
    inBounds (x.decay_toward y r) := by
  obtain ⟨hx1, hx2, hx3, hx4, hx5, hx6⟩ := hx
  obtain ⟨hy1, hy2, hy3, hy4, hy5, hy6⟩ := hy
  unfold AffectiveDimensions.decay_toward inBounds
  dsimp only
  refine ⟨?_, ?_, ?_, ?_, ?_, ?_⟩ <;> nlinarith

/-- The squared distance is nonnegative. -/
theorem distSq_nonneg (a b : AffectiveDimensions) : 0 ≤ distSq a b := by
  unfold distSq; positivity

/-- `decay_toward` scales the squared distance to the baseline by
`(1 - rate)^2`. -/
theorem distSq_decay_toward (x b : AffectiveDimensions) (r : ℚ) :
    distSq (x.decay_toward b r) b = (1 - r) ^ 2 * distSq x b := by
  unfold AffectiveDimensions.decay_toward distSq
  dsimp only
  ring

/-! ### C4: blend / decay_toward clamping -/

/-- C4 counterexample: `blend` and `decay_toward` do not clamp their
output to `[-1, 1]`; with weight 2 (resp. rate 3) they produce components
2 and -2. -/
theorem c4_counterexample :
    (AffectiveDimensions.blend ⟨0, 0, 0⟩ ⟨1, 1, 1⟩ 2).valence = 2 ∧
    ¬ inBounds (AffectiveDimensions.blend ⟨0, 0, 0⟩ ⟨1, 1, 1⟩ 2) ∧
    (AffectiveDimensions.decay_toward ⟨1, 0, 0⟩ ⟨0, 0, 0⟩ 3).valence = -2 ∧
    ¬ inBounds (AffectiveDimensions.decay_toward ⟨1, 0, 0⟩ ⟨0, 0, 0⟩ 3) := by
  norm_num [AffectiveDimensions.blend, AffectiveDimensions.decay_toward, inBounds]

/-- C4 (amended): `blend` and `decay_toward` perform unclamped linear
interpolation; their output lies in `[-1, 1]` whenever both inputs do and
the weight (resp. rate) lies in `[0, 1]`. -/
theorem c4_blend_decay_bounds_amended (x y : AffectiveDimensions) (w : ℚ)
    (hx : inBounds x) (hy : inBounds y) (hw0 : 0 ≤ w) (hw1 : w ≤ 1) :
    inBounds (x.blend y w) ∧ inBounds (x.decay_toward y w) :=
  ⟨blend_inBounds hx hy hw0 hw1, decay_toward_inBounds hx hy hw0 hw1⟩

/-- C4 witness: the amended statement evaluated at concrete inputs. -/
theorem c4_blend_decay_bounds_witness :
    inBounds (⟨1, 0, 0⟩ : AffectiveDimensions) ∧
    inBounds (⟨0, 1, -1⟩ : AffectiveDimensions) ∧
    (0 : ℚ) ≤ 1/2 ∧ (1/2 : ℚ) ≤ 1 ∧
    (inBounds (AffectiveDimensions.blend ⟨1, 0, 0⟩ ⟨0, 1, -1⟩ (1/2)) ∧
     inBounds (AffectiveDimensions.decay_toward ⟨1, 0, 0⟩ ⟨0, 1, -1⟩ (1/2))) :=
  ⟨by norm_num [inBounds], by norm_num [inBounds], by norm_num, by norm_num,
   c4_blend_decay_bounds_amended ⟨1, 0, 0⟩ ⟨0, 1, -1⟩ (1/2)
     (by norm_num [inBounds]) (by norm_num [inBounds]) (by norm_num) (by norm_num)⟩

/-! ### C2: bounds invariant under decay -/

/-- C2: starting from a state whose affect is in `[-1, 1]` and whose
activations are in `[0, 1]`, a single `decay` call with elapsed time 3600
seconds computes `decay_rate = 4.5` and drives the valence to `-3.5` and
the CARE activation to `-1.75`, violating the declared bounds. -/
theorem c2_decay_violates_bounds :
    inBounds overshootState.current_affect ∧
    (∀ sys, 0 ≤ overshootState.system_activations sys ∧
            overshootState.system_activations sys ≤ 1) ∧
    (overshootState.decay 3600).current_affect.valence = -7/2 ∧
    ¬ inBounds (overshootState.decay 3600).current_affect ∧
    (overshootState.decay 3600).system_activations .CARE = -7/4 ∧
    ¬ (0 ≤ (overshootState.decay 3600).system_activations .CARE) := by
  refine ⟨by norm_num [overshootState, inBounds], ?_, ?_, ?_, ?_, ?_⟩
  · intro sys
    cases sys
    all_goals simp [overshootState]
    all_goals norm_num
  · norm_num [overshootState, AdvancedEmotionalState.decay,
      AffectiveDimensions.decay_toward]
  · norm_num [overshootState, AdvancedEmotionalState.decay,
      AffectiveDimensions.decay_toward, inBounds]
  · norm_num [overshootState, AdvancedEmotionalState.decay, decayFactor]
  · norm_num [overshootState, AdvancedEmotionalState.decay, decayFactor]

/-! ### C3: decay monotonicity -/

/-- C3: the `decay_toward` half of the claim holds (for rate in `(0, 1]`
the distance to the baseline does not grow), but `decay` itself overshoots:
at elapsed time 3600 s from valence 1 over baseline 0 the distance to the
baseline strictly increases (from 1 to 3.5). -/
theorem c3_decay_monotonicity :
    (∀ (x b : AffectiveDimensions) (rate : ℚ), 0 < rate → rate ≤ 1 →
      distance_to (x.decay_toward b rate) b ≤ distance_to x b) ∧
    distance_to overshootState.current_affect overshootState.baseline_affect <
      distance_to (overshootState.decay 3600).current_affect
        overshootState.baseline_affect := by
  constructor
  · intro x b rate hr0 hr1
    unfold distance_to
    apply Real.sqrt_le_sqrt
    rw [distSq_decay_toward]
    have hD := distSq_nonneg x b
    have key : (1 - rate) ^ 2 * distSq x b ≤ distSq x b := by
      nlinarith [mul_nonneg (mul_nonneg hD hr0.le) (by linarith : (0:ℚ) ≤ 2 - rate)]
    exact_mod_cast key
  · have h1 : distSq overshootState.current_affect overshootState.baseline_affect
        = 1 := by
      norm_num [overshootState, distSq]
    have h2 : distSq (overshootState.decay 3600).current_affect
        overshootState.baseline_affect = 49/4 := by
      norm_num [overshootState, AdvancedEmotionalState.decay,
        AffectiveDimensions.decay_toward, distSq]
    unfold distance_to
    rw [h1, h2]
    have : ((1 : ℚ) : ℝ) < ((49/4 : ℚ) : ℝ) := by norm_num
    exact Real.sqrt_lt_sqrt (by positivity) this

/-- C3 witness: the `decay_toward` monotonicity applied at a concrete
point and rate. -/
theorem c3_decay_monotonicity_witness :
    (0 : ℚ) < 1/2 ∧ (1/2 : ℚ) ≤ 1 ∧
    distance_to (AffectiveDimensions.decay_toward ⟨1, 0, 0⟩ ⟨0, 0, 0⟩ (1/2))
        ⟨0, 0, 0⟩ ≤ distance_to ⟨1, 0, 0⟩ ⟨0, 0, 0⟩ :=
  ⟨by norm_num, by norm_num,
   c3_decay_monotonicity.1 ⟨1, 0, 0⟩ ⟨0, 0, 0⟩ (1/2) (by norm_num) (by norm_num)⟩

/-! ### C7: construction validation -/

/-- C7 counterexample: a baseline valence of 2 (outside `[-1, 1]`) is not
rejected at construction; the factory succeeds and stores the value
unchanged (it is not clamped either). -/
theorem c7_counterexample :
    (create_advanced_emotional_state "c" 2 0 0 (1/4)).isOk = true ∧
    ((create_advanced_emotional_state "c" 2 0 0 (1/4)).toOption.map
        (fun st => st.baseline_affect.valence)) = some 2 ∧
    ¬ ((2 : ℚ) ≤ 1) := by
  have hok : create_advanced_emotional_state "c" 2 0 0 (1/4) =
      .ok { character_id := "c", current_affect := ⟨2, 0, 0⟩,
            baseline_affect := ⟨2, 0, 0⟩, emotional_inertia := 1/4 } := by
    rw [create_advanced_emotional_state, if_pos (by norm_num)]
  refine ⟨?_, ?_, by norm_num⟩ <;> rw [hok] <;> rfl

/-- C7 (amended): construction rejects exactly an `emotional_inertia`
outside `[0, 1]` (the pydantic `Field(ge=0.0, le=1.0)` validation), while
out-of-range baseline components are accepted and stored unchanged,
neither rejected nor clamped. -/
theorem c7_construction_validation_amended (cid : String) (bv ba bd i : ℚ) :
    ((create_advanced_emotional_state cid bv ba bd i).isOk = true ↔
      (0 ≤ i ∧ i ≤ 1)) ∧
    ∀ st, create_advanced_emotional_state cid bv ba bd i = .ok st →
      st.baseline_affect = ⟨bv, ba, bd⟩ ∧ st.current_affect = ⟨bv, ba, bd⟩ ∧
        st.emotional_inertia = i := by
  unfold create_advanced_emotional_state
  by_cases h : 0 ≤ i ∧ i ≤ 1
  · rw [if_pos h]
    refine ⟨by simpa [Except.isOk, Except.toBool] using h, ?_⟩
    intro st hst
    cases hst
    exact ⟨rfl, rfl, rfl⟩
  · rw [if_neg h]
    refine ⟨by simpa [Except.isOk, Except.toBool] using h, ?_⟩
    intro st hst
    cases hst

/-- C7 witness: the amended statement evaluated at a concrete
out-of-range baseline. -/
theorem c7_construction_validation_witness :
    (((create_advanced_emotional_state "c" 2 0 0 (1/4)).isOk = true ↔
       (0 ≤ (1/4 : ℚ) ∧ (1/4 : ℚ) ≤ 1))) ∧
    (({ character_id := "c", current_affect := ⟨2, 0, 0⟩,
        baseline_affect := ⟨2, 0, 0⟩,
        emotional_inertia := 1/4 } : AdvancedEmotionalState).baseline_affect
          = ⟨2, 0, 0⟩ ∧
     ({ character_id := "c", current_affect := ⟨2, 0, 0⟩,
        baseline_affect := ⟨2, 0, 0⟩,
        emotional_inertia := 1/4 } : AdvancedEmotionalState).current_affect
          = ⟨2, 0, 0⟩ ∧
     ({ character_id := "c", current_affect := ⟨2, 0, 0⟩,
        baseline_affect := ⟨2, 0, 0⟩,
        emotional_inertia := 1/4 } : AdvancedEmotionalState).emotional_inertia
          = 1/4) :=
  ⟨(c7_construction_validation_amended "c" 2 0 0 (1/4)).1,
   (c7_construction_validation_amended "c" 2 0 0 (1/4)).2 _
     (by rw [create_advanced_emotional_state, if_pos (by norm_num)])⟩

/-! ### C8: totality and no-match appraisal -/

/-- A pattern with zero keyword matches leaves the accumulator unchanged. -/
theorem applyPattern_no_match {msgL : List Char}
    {acc : AdvancedEmotionalState × AppraisalResult} {p : AppraisalPattern}
    (h : countMatches p msgL = 0) : applyPattern msgL acc p = acc := by
  unfold applyPattern
  rw [h]
  simp

/-- Folding `applyPattern` over patterns none of which match is the
identity. -/
theorem foldl_applyPattern_no_match (msgL : List Char) :
    ∀ (l : List AppraisalPattern) (acc : AdvancedEmotionalState × AppraisalResult),
      (∀ p ∈ l, countMatches p msgL = 0) →
      l.foldl (applyPattern msgL) acc = acc := by
  intro l
  induction l with
  | nil => intro acc _; rfl
  | cons hd tl ih =>
    intro acc h
    rw [List.foldl_cons, applyPattern_no_match (h hd (by simp))]
    exact ih acc (fun p hp => h p (by simp [hp]))

/-- Clamping the zero appraisal is the identity. -/
theorem clampAppraisal_zero : clampAppraisal zeroAppraisal = zeroAppraisal := by
  norm_num [clampAppraisal, zeroAppraisal, clamp1]

/-- C8: `appraise_message` is a total function on strings (it is defined,
with no failure channel, for every input, matching the exception-free
source paths), the empty string produces the all-zero appraisal, and more
generally any text in which no pattern keyword occurs (case-insensitively)
produces the all-zero appraisal. -/
theorem c8_appraise_total_no_match :
    (∀ s : AdvancedEmotionalState, (s.appraise_message "").2 = zeroAppraisal) ∧
    (∀ (s : AdvancedEmotionalState) (msg : String),
      (∀ p ∈ APPRAISAL_PATTERNS, countMatches p (msg.data.map toLowerChar) = 0) →
      (s.appraise_message msg).2 = zeroAppraisal) := by
  have general : ∀ (s : AdvancedEmotionalState) (msg : String),
      (∀ p ∈ APPRAISAL_PATTERNS, countMatches p (msg.data.map toLowerChar) = 0) →
      (s.appraise_message msg).2 = zeroAppraisal := by
    intro s msg h
    have hscan : APPRAISAL_PATTERNS.foldl (applyPattern (msg.data.map toLowerChar))
        (s, zeroAppraisal) = (s, zeroAppraisal) :=
      foldl_applyPattern_no_match _ _ _ h
    simp only [AdvancedEmotionalState.appraise_message, hscan]
    exact clampAppraisal_zero
  refine ⟨?_, general⟩
  intro s
  exact general s "" (by decide)

/-- C8 witness: the no-match part applied to a concrete keyword-free
message. -/
theorem c8_appraise_total_no_match_witness :
    (freshState.appraise_message "xyzq").2 = zeroAppraisal :=
  c8_appraise_total_no_match.2 freshState "xyzq" (by decide)

/-! ### C9: deterministic emotion labeling -/

/-- Unfolding of `mergeMin` at a `some` argument. -/
theorem mergeMin_some (e : EmotionLabel) (m : ℚ) (e0 : EmotionLabel) (m0 : ℚ) :
    mergeMin (some (e, m)) e0 m0 =
      if m < m0 then (e, some m) else (e0, some m0) := rfl

/-- The running-minimum fold started at a finite accumulator computes the
first minimum of the remaining list merged with the accumulator. -/
theorem foldl_stepMin_some (dims : AffectiveDimensions) :
    ∀ (l : List (EmotionLabel × AffectiveDimensions)) (e0 : EmotionLabel) (m0 : ℚ),
      l.foldl (stepMin dims) (e0, some m0) =
        mergeMin (specFirstMin dims l) e0 m0 := by
  intro l
  induction l with
  | nil => intro e0 m0; rfl
  | cons ec t ih =>
    intro e0 m0
    rw [List.foldl_cons]
    have hstep : stepMin dims (e0, some m0) ec =
        if distSq dims ec.2 < m0 then (ec.1, some (distSq dims ec.2))
        else (e0, some m0) := rfl
    have hcons : specFirstMin dims (ec :: t) =
        match specFirstMin dims t with
        | none => some (ec.1, distSq dims ec.2)
        | some (e, m) =>
          if distSq dims ec.2 ≤ m then some (ec.1, distSq dims ec.2)
          else some (e, m) := rfl
    rw [hstep, hcons]
    rcases hspec : specFirstMin dims t with _ | ⟨e, m⟩
    · by_cases hd : distSq dims ec.2 < m0
      · rw [if_pos hd, ih, hspec, mergeMin_some, if_pos hd]
        rfl
      · rw [if_neg hd, ih, hspec, mergeMin_some, if_neg hd]
        rfl
    · by_cases hdm : distSq dims ec.2 ≤ m
      · have hred : (match some (e, m) with
            | none => some (ec.1, distSq dims ec.2)
            | some (e, m) =>
              if distSq dims ec.2 ≤ m then some (ec.1, distSq dims ec.2)
              else some (e, m)) = some (ec.1, distSq dims ec.2) := by
          dsimp only
          rw [if_pos hdm]
        rw [hred, mergeMin_some]
        by_cases hd : distSq dims ec.2 < m0
        · rw [if_pos hd, ih, hspec, mergeMin_some, if_neg (by linarith)]
        · rw [if_neg hd, ih, hspec, mergeMin_some, if_neg (by linarith)]
      · have hred : (match some (e, m) with
            | none => some (ec.1, distSq dims ec.2)
            | some (e, m) =>
              if distSq dims ec.2 ≤ m then some (ec.1, distSq dims ec.2)
              else some (e, m)) = some (e, m) := by
          dsimp only
          rw [if_neg hdm]
        rw [hred, mergeMin_some]
        have hmd : m < distSq dims ec.2 := not_le.mp hdm
        by_cases hd : distSq dims ec.2 < m0
        · rw [if_pos hd, ih, hspec, mergeMin_some, if_pos hmd,
            if_pos (lt_trans hmd hd)]
        · rw [if_neg hd, ih, hspec, mergeMin_some]

/-- The source's scan (infinite initial minimum) over a nonempty list
returns exactly the spec's first minimal entry. -/
theorem foldl_stepMin_start (dims : AffectiveDimensions)
    (l : List (EmotionLabel × AffectiveDimensions)) (hl : l ≠ []) :
    ∃ e m, specFirstMin dims l = some (e, m) ∧
      List.foldl (stepMin dims) (EmotionLabel.NEUTRAL, none) l = (e, some m) := by
  cases l with
  | nil => exact absurd rfl hl
  | cons ec t =>
    rw [List.foldl_cons]
    have h0 : stepMin dims (EmotionLabel.NEUTRAL, none) ec =
        (ec.1, some (distSq dims ec.2)) := rfl
    have hcons : specFirstMin dims (ec :: t) =
        match specFirstMin dims t with
        | none => some (ec.1, distSq dims ec.2)
        | some (e, m) =>
          if distSq dims ec.2 ≤ m then some (ec.1, distSq dims ec.2)
          else some (e, m) := rfl
    rw [h0, foldl_stepMin_some, hcons]
    rcases hspec : specFirstMin dims t with _ | ⟨e, m⟩
    · exact ⟨ec.1, distSq dims ec.2, rfl, rfl⟩
    · by_cases hdm : distSq dims ec.2 ≤ m
      · refine ⟨ec.1, distSq dims ec.2, ?_, ?_⟩
        · dsimp only; rw [if_pos hdm]
        · rw [mergeMin_some, if_neg (by linarith)]
      · refine ⟨e, m, ?_, ?_⟩
        · dsimp only; rw [if_neg hdm]
        · rw [mergeMin_some, if_pos (not_le.mp hdm)]

/-- C9: `get_closest_emotion` at the origin returns NEUTRAL with
confidence 1, and in general it returns the first label (in table
iteration order) at minimal Euclidean distance, with confidence
`max(0, 1 - min_distance / 2)` (here `m` is the minimal squared
distance, so `min_distance = Real.sqrt m`). -/
theorem c9_emotion_labeling :
    get_closest_emotion ⟨0, 0, 0⟩ = (EmotionLabel.NEUTRAL, 1) ∧
    ∀ dims, ∃ m : ℚ,
      specFirstMin dims EMOTION_COORDINATES =
        some ((get_closest_emotion dims).1, m) ∧
      (get_closest_emotion dims).2 = max 0 (1 - Real.sqrt ((m : ℝ)) / 2) := by
  constructor
  · have hscan0 : closestScan ⟨0, 0, 0⟩ = (EmotionLabel.NEUTRAL, some 0) := by
      norm_num [closestScan, EMOTION_COORDINATES, stepMin, distSq]
    have : get_closest_emotion ⟨0, 0, 0⟩ =
        (EmotionLabel.NEUTRAL, max 0 (1 - Real.sqrt ((0 : ℚ)) / 2)) := by
      rw [get_closest_emotion, hscan0]
      simp
    rw [this]
    norm_num [Real.sqrt_zero]
  · intro dims
    obtain ⟨e, m, h1, h2⟩ := foldl_stepMin_start dims EMOTION_COORDINATES
      (by simp [EMOTION_COORDINATES])
    have hscan : closestScan dims = (e, some m) := h2
    refine ⟨m, ?_, ?_⟩
    · rw [show (get_closest_emotion dims).1 = (closestScan dims).1 from rfl, hscan]
      exact h1
    · rw [show (get_closest_emotion dims).2 =
        max 0 (1 - Real.sqrt (((closestScan dims).2.getD 0 : ℚ)) / 2) from rfl, hscan]
      simp

/-! ### C6: Scenario A ("Thank you so much, I am so grateful") -/

/-- Only the Gratitude pattern matches Scenario A's text, via the two
keywords `thank` and `grateful`. -/
theorem countMatches_gratitude :
    countMatches patternGratitude (scenarioAMessage.data.map toLowerChar) = 2 := by
  decide

/-- Evaluation of the Gratitude pattern step on Scenario A's text: weight
`min(1, 2*0.3) = 0.6` (no negativity amplification), CARE stimulus
`0.6 * 0.5 = 0.3`. -/
theorem applyPattern_gratitude (s : AdvancedEmotionalState) :
    applyPattern (scenarioAMessage.data.map toLowerChar) (s, zeroAppraisal)
      patternGratitude =
    (s.activate_system .CARE (3/10),
     addEffects zeroAppraisal patternGratitude.appraisal_effects (3/5)) := by
  simp only [applyPattern, countMatches_gratitude]
  norm_num [patternGratitude]
  rw [if_neg (by decide)]

/-- The clamped Scenario A appraisal: pleasantness `0.8*0.6 = 0.48`,
goal conduciveness `0.3`, internal/external standards `0.24`/`0.36`. -/
theorem clamp_gratitude :
    clampAppraisal (addEffects zeroAppraisal patternGratitude.appraisal_effects (3/5)) =
      ⟨0, 12/25, 0, 3/10, 0, 0, 0, 0, 6/25, 9/25⟩ := by
  norm_num [addEffects, clampAppraisal, clamp1, patternGratitude, zeroAppraisal,
    AppraisalResult.mk.injEq]

/-- Full evaluation of `appraise_message` on Scenario A's text from an
arbitrary state: the appraisal has pleasantness `0.48` and the state is
changed only by a CARE activation with stimulus `0.3`. -/
theorem appraise_scenarioA (s : AdvancedEmotionalState) :
    s.appraise_message scenarioAMessage =
      ({ s.activate_system .CARE (3/10) with
          last_appraisal := some ⟨0, 12/25, 0, 3/10, 0, 0, 0, 0, 6/25, 9/25⟩ },
       ⟨0, 12/25, 0, 3/10, 0, 0, 0, 0, 6/25, 9/25⟩) := by
  have hfold : APPRAISAL_PATTERNS.foldl
      (applyPattern (scenarioAMessage.data.map toLowerChar)) (s, zeroAppraisal) =
      (s.activate_system .CARE (3/10),
       addEffects zeroAppraisal patternGratitude.appraisal_effects (3/5)) := by
    rw [show APPRAISAL_PATTERNS =
      [patternSeeking, patternRage, patternFear, patternCare, patternPanicGrief,
       patternPlay] ++ patternGratitude ::
      [patternHope, patternShameGuilt, patternPride, patternSurprise,
       patternGreetings, patternCompliments, patternAgreement, patternInterest,
       patternAdventure, patternPeace, patternStories] from rfl,
      List.foldl_append]
    rw [foldl_applyPattern_no_match _
      [patternSeeking, patternRage, patternFear, patternCare, patternPanicGrief,
       patternPlay] _ (by decide)]
    rw [List.foldl_cons, applyPattern_gratitude]
    rw [foldl_applyPattern_no_match _
      [patternHope, patternShameGuilt, patternPride, patternSurprise,
       patternGreetings, patternCompliments, patternAgreement, patternInterest,
       patternAdventure, patternPeace, patternStories] _ (by decide)]
  simp only [AdvancedEmotionalState.appraise_message, hfold, clamp_gratitude]

/-- C6 counterexample: Scenario A's appraisal has pleasantness exactly
`0.48`, which is not strictly greater than `0.5` as the claim requires. -/
theorem c6_counterexample :
    (freshState.appraise_message scenarioAMessage).2.pleasantness = 12/25 ∧
    ¬ ((freshState.appraise_message scenarioAMessage).2.pleasantness > 1/2) := by
  rw [appraise_scenarioA]
  norm_num

/-- C6 (amended): Scenario A's appraisal has pleasantness `0.48` (positive,
but not above `0.5`), and the CARE activation strictly increases provided
the prior CARE activation is below the stimulus `0.3` and the inertia is
in `[0, 1)`. -/
theorem c6_scenario_a_amended (s : AdvancedEmotionalState)
    (h1 : 0 ≤ s.system_activations .CARE)
    (h2 : s.system_activations .CARE < 3/10)
    (h3 : 0 ≤ s.emotional_inertia) (h4 : s.emotional_inertia < 1) :
    (s.appraise_message scenarioAMessage).2.pleasantness = 12/25 ∧
    s.system_activations .CARE <
      (s.appraise_message scenarioAMessage).1.system_activations .CARE := by
  rw [appraise_scenarioA]
  refine ⟨rfl, ?_⟩
  show s.system_activations .CARE <
    (s.activate_system .CARE (3/10)).system_activations .CARE
  simp only [AdvancedEmotionalState.activate_system]
  rw [if_pos trivial]
  have hx1 : s.system_activations .CARE <
      s.system_activations .CARE +
        (3/10 - s.system_activations .CARE) * (1 - s.emotional_inertia) := by
    nlinarith
  have hx2 : s.system_activations .CARE +
      (3/10 - s.system_activations .CARE) * (1 - s.emotional_inertia) ≤ 1 := by
    nlinarith
  rw [min_eq_right hx2]
  exact lt_of_lt_of_le hx1 (le_max_right _ _)

/-- C6 witness: the amended statement evaluated on a fresh state. -/
theorem c6_scenario_a_witness :
    0 ≤ freshState.system_activations .CARE ∧
    freshState.system_activations .CARE < 3/10 ∧
    0 ≤ freshState.emotional_inertia ∧ freshState.emotional_inertia < 1 ∧
    ((freshState.appraise_message scenarioAMessage).2.pleasantness = 12/25 ∧
     freshState.system_activations .CARE <
       (freshState.appraise_message scenarioAMessage).1.system_activations .CARE) :=
  ⟨by norm_num [freshState], by norm_num [freshState], by norm_num [freshState],
   by norm_num [freshState],
   c6_scenario_a_amended freshState (by norm_num [freshState])
     (by norm_num [freshState]) (by norm_num [freshState])
     (by norm_num [freshState])⟩

/-! ### C5: negativity-bias decay asymmetry -/

/-- C5 counterexample: the claim fails for two different reasons.  With a
shared baseline of valence `-0.5` the negative state sits at its baseline
(distance 0 before and after decay) while the positive state keeps a
positive distance, so the negative distance is not strictly greater.  With
baseline valence `0` but elapsed time 3600 s, the positive rate `4.5`
overshoots the baseline so far (valence `-1.75`) that the positive state
ends up strictly farther from the baseline than the negative one. -/
theorem c5_counterexample :
    ¬ (distance_to
        ((AdvancedEmotionalState.mk "n" ⟨-1/2, 0, 0⟩ ⟨-1/2, 0, 0⟩
          (fun _ => 0) none 0.3).decay 60).current_affect ⟨-1/2, 0, 0⟩ >
       distance_to
        ((AdvancedEmotionalState.mk "p" ⟨1/2, 0, 0⟩ ⟨-1/2, 0, 0⟩
          (fun _ => 0) none 0.3).decay 60).current_affect ⟨-1/2, 0, 0⟩) ∧
    ¬ (distance_to
        ((AdvancedEmotionalState.mk "n" ⟨-1/2, 0, 0⟩ ⟨0, 0, 0⟩
          (fun _ => 0) none 0.3).decay 3600).current_affect ⟨0, 0, 0⟩ >
       distance_to
        ((AdvancedEmotionalState.mk "p" ⟨1/2, 0, 0⟩ ⟨0, 0, 0⟩
          (fun _ => 0) none 0.3).decay 3600).current_affect ⟨0, 0, 0⟩) := by
  constructor
  · have hn : distSq ((AdvancedEmotionalState.mk "n" ⟨-1/2, 0, 0⟩ ⟨-1/2, 0, 0⟩
        (fun _ => 0) none 0.3).decay 60).current_affect ⟨-1/2, 0, 0⟩ = 0 := by
      norm_num [AdvancedEmotionalState.decay, AffectiveDimensions.decay_toward, distSq]
    have hp : distSq ((AdvancedEmotionalState.mk "p" ⟨1/2, 0, 0⟩ ⟨-1/2, 0, 0⟩
        (fun _ => 0) none 0.3).decay 60).current_affect ⟨-1/2, 0, 0⟩ = 1369/1600 := by
      norm_num [AdvancedEmotionalState.decay, AffectiveDimensions.decay_toward, distSq]
    rw [not_lt]
    unfold distance_to
    rw [hn, hp]
    exact Real.sqrt_le_sqrt (by norm_num)
  · have hn : distSq ((AdvancedEmotionalState.mk "n" ⟨-1/2, 0, 0⟩ ⟨0, 0, 0⟩
        (fun _ => 0) none 0.3).decay 3600).current_affect ⟨0, 0, 0⟩ = 1/100 := by
      norm_num [AdvancedEmotionalState.decay, AffectiveDimensions.decay_toward, distSq]
    have hp : distSq ((AdvancedEmotionalState.mk "p" ⟨1/2, 0, 0⟩ ⟨0, 0, 0⟩
        (fun _ => 0) none 0.3).decay 3600).current_affect ⟨0, 0, 0⟩ = 49/16 := by
      norm_num [AdvancedEmotionalState.decay, AffectiveDimensions.decay_toward, distSq]
    rw [not_lt]
    unfold distance_to
    rw [hn, hp]
    exact Real.sqrt_le_sqrt (by norm_num)

/-- C5 (amended): for two states with valences `-0.5` and `+0.5`, equal
arousal and dominance, and a shared baseline whose valence is `0` (so the
pre-decay distances agree), decay with any elapsed time in `(0, 800]`
seconds (so the positive rate stays at most 1, with no overshoot) leaves
the negative state strictly farther from the baseline than the positive
one. -/
theorem c5_decay_asymmetry_amended (a dmn ba bd i1 i2 : ℚ)
    (acts1 acts2 : AffectiveSystem → ℚ) (cid1 cid2 : String)
    (la1 la2 : Option AppraisalResult) (t : ℚ)
    (ht0 : 0 < t) (ht1 : t ≤ 800) :
    distance_to ((AdvancedEmotionalState.mk cid2 ⟨1/2, a, dmn⟩ ⟨0, ba, bd⟩
        acts2 la2 i2).decay t).current_affect ⟨0, ba, bd⟩ <
    distance_to ((AdvancedEmotionalState.mk cid1 ⟨-1/2, a, dmn⟩ ⟨0, ba, bd⟩
        acts1 la1 i1).decay t).current_affect ⟨0, ba, bd⟩ := by
  have hneg : ((AdvancedEmotionalState.mk cid1 ⟨-1/2, a, dmn⟩ ⟨0, ba, bd⟩
      acts1 la1 i1).decay t).current_affect =
      AffectiveDimensions.decay_toward ⟨-1/2, a, dmn⟩ ⟨0, ba, bd⟩
        (0.05 * (t/60) * 0.4 / (1 + max 0 a * 0.5)) := by
    simp only [AdvancedEmotionalState.decay]
    rw [if_pos (by norm_num)]
  have hpos : ((AdvancedEmotionalState.mk cid2 ⟨1/2, a, dmn⟩ ⟨0, ba, bd⟩
      acts2 la2 i2).decay t).current_affect =
      AffectiveDimensions.decay_toward ⟨1/2, a, dmn⟩ ⟨0, ba, bd⟩
        (0.05 * (t/60) * 1.5) := by
    simp only [AdvancedEmotionalState.decay]
    rw [if_neg (by norm_num), if_pos (by norm_num)]
  unfold distance_to
  rw [hneg, hpos, distSq_decay_toward, distSq_decay_toward]
  have hDeq : distSq ⟨1/2, a, dmn⟩ ⟨0, ba, bd⟩ =
      distSq ⟨-1/2, a, dmn⟩ ⟨0, ba, bd⟩ := by
    simp only [distSq]
    ring
  rw [hDeq]
  have hDpos : 0 < distSq ⟨-1/2, a, dmn⟩ ⟨0, ba, bd⟩ := by
    simp only [distSq]
    nlinarith [sq_nonneg (a - ba), sq_nonneg (dmn - bd)]
  have hden : (1 : ℚ) ≤ 1 + max 0 a * 0.5 := by
    have : (0 : ℚ) ≤ max 0 a := le_max_left _ _
    nlinarith
  have hB0 : (0 : ℚ) < 0.05 * (t/60) := by nlinarith
  have hB1 : (0.05 : ℚ) * (t/60) ≤ 2/3 := by nlinarith
  have hrn : 0.05 * (t/60) * 0.4 / (1 + max 0 a * 0.5) ≤ 0.05 * (t/60) * 0.4 :=
    div_le_self (by nlinarith) hden
  have hrn0 : 0 < 0.05 * (t/60) * 0.4 / (1 + max 0 a * 0.5) :=
    div_pos (by nlinarith) (by linarith)
  have hrp1 : 0.05 * (t/60) * 1.5 ≤ 1 := by nlinarith
  have hlt : 0.05 * (t/60) * 0.4 / (1 + max 0 a * 0.5) < 0.05 * (t/60) * 1.5 := by
    nlinarith
  have key : (1 - 0.05 * (t/60) * 1.5) ^ 2 * distSq ⟨-1/2, a, dmn⟩ ⟨0, ba, bd⟩ <
      (1 - 0.05 * (t/60) * 0.4 / (1 + max 0 a * 0.5)) ^ 2 *
        distSq ⟨-1/2, a, dmn⟩ ⟨0, ba, bd⟩ := by
    have hsq : (1 - 0.05 * (t/60) * 1.5) ^ 2 <
        (1 - 0.05 * (t/60) * 0.4 / (1 + max 0 a * 0.5)) ^ 2 := by
      nlinarith
    exact mul_lt_mul_of_pos_right hsq hDpos
  refine Real.sqrt_lt_sqrt ?_ ?_
  · positivity
  · exact_mod_cast key

/-- C5 witness: the amended statement at a concrete pair of states and one
minute of elapsed time. -/
theorem c5_decay_asymmetry_witness :
    (0 : ℚ) < 60 ∧ (60 : ℚ) ≤ 800 ∧
    distance_to ((AdvancedEmotionalState.mk "p" ⟨1/2, 0, 0⟩ ⟨0, 0, 0⟩
        (fun _ => 0) none 0.3).decay 60).current_affect ⟨0, 0, 0⟩ <
    distance_to ((AdvancedEmotionalState.mk "n" ⟨-1/2, 0, 0⟩ ⟨0, 0, 0⟩
        (fun _ => 0) none 0.3).decay 60).current_affect ⟨0, 0, 0⟩ :=
  ⟨by norm_num, by norm_num,
   c5_decay_asymmetry_amended 0 0 0 0 0.3 0.3 (fun _ => 0) (fun _ => 0)
     "n" "p" none none 60 (by norm_num) (by norm_num)⟩

/-! ### C1 and C10: update_affect asymmetry and bounds -/

/-- A sum of coordinate-weighted activations is bounded by the sum of the
activations when every coordinate has absolute value at most 1. -/
theorem weighted_sum_bound (f g : AffectiveSystem → ℚ) (hf : ∀ sys, |f sys| ≤ 1) :
    ∀ (l : List AffectiveSystem), (∀ sys ∈ l, 0 ≤ g sys) →
      |(l.map (fun sys => f sys * g sys)).sum| ≤ (l.map g).sum := by
  intro l
  induction l with
  | nil => simp
  | cons hd tl ih =>
    intro h
    simp only [List.map_cons, List.sum_cons]
    have h1 : |f hd * g hd| ≤ g hd := by
      rw [abs_mul]
      have hg : 0 ≤ g hd := h hd (by simp)
      calc |f hd| * |g hd| = |f hd| * g hd := by rw [abs_of_nonneg hg]
        _ ≤ 1 * g hd := mul_le_mul_of_nonneg_right (hf hd) hg
        _ = g hd := one_mul _
    have h2 := ih (fun sys hs => h sys (by simp [hs]))
    calc |f hd * g hd + ((tl.map fun sys => f sys * g sys)).sum|
        ≤ |f hd * g hd| + |(tl.map fun sys => f sys * g sys).sum| := abs_add _ _
      _ ≤ g hd + (tl.map g).sum := by linarith

/-- Every system in the active filter has nonnegative activation. -/
theorem active_mem_nonneg (acts : AffectiveSystem → ℚ) :
    ∀ sys ∈ systemsList.filter (fun sys => 0.1 < acts sys), 0 ≤ acts sys := by
  intro sys hs
  have h := (List.mem_filter.mp hs).2
  have h2 : (0.1 : ℚ) < acts sys := by simpa using h
  linarith

/-- If the total activation of the active systems is not positive, the
active filter is empty. -/
theorem active_empty_of_total_nonpos (acts : AffectiveSystem → ℚ)
    (h : ¬ 0 < ((systemsList.filter (fun sys => 0.1 < acts sys)).map acts).sum) :
    systemsList.filter (fun sys => 0.1 < acts sys) = [] := by
  rcases hl : systemsList.filter (fun sys => 0.1 < acts sys) with _ | ⟨hd, tl⟩
  · rfl
  · exfalso
    apply h
    rw [hl, List.map_cons, List.sum_cons]
    have hhd : (0.1 : ℚ) < acts hd := by
      have := (List.mem_filter.mp (hl ▸ List.mem_cons_self hd tl)).2
      simpa using this
    have htl : 0 ≤ (tl.map acts).sum := by
      apply List.sum_nonneg
      intro x hx
      obtain ⟨y, hy, hxy⟩ := List.mem_map.mp hx
      have hymem : y ∈ systemsList.filter (fun sys => 0.1 < acts sys) :=
        hl ▸ List.mem_cons_of_mem hd hy
      have := active_mem_nonneg acts y hymem
      rw [← hxy]
      exact this
    nlinarith

/-- All system coordinates have valence of absolute value at most 1. -/
theorem abs_system_valence (sys : AffectiveSystem) :
    |(SYSTEM_DIMENSIONS sys).valence| ≤ 1 := by
  cases sys <;> simp [SYSTEM_DIMENSIONS, abs_le] <;> norm_num

/-- All system coordinates have arousal of absolute value at most 1. -/
theorem abs_system_arousal (sys : AffectiveSystem) :
    |(SYSTEM_DIMENSIONS sys).arousal| ≤ 1 := by
  cases sys <;> simp [SYSTEM_DIMENSIONS, abs_le] <;> norm_num

/-- All system coordinates have dominance of absolute value at most 1. -/
theorem abs_system_dominance (sys : AffectiveSystem) :
    |(SYSTEM_DIMENSIONS sys).dominance| ≤ 1 := by
  cases sys <;> simp [SYSTEM_DIMENSIONS, abs_le] <;> norm_num

/-- The system influence is always a point of the affect cube: it is
either the zero vector or an activation-weighted average of system
coordinates. -/
theorem systemInfluence_inBounds (acts : AffectiveSystem → ℚ) :
    inBounds (systemInfluence acts) := by
  unfold systemInfluence
  by_cases htot :
      0 < ((systemsList.filter (fun sys => 0.1 < acts sys)).map acts).sum
  · rw [if_pos htot]
    have hmem := active_mem_nonneg acts
    have hV := weighted_sum_bound (fun sys => (SYSTEM_DIMENSIONS sys).valence)
      acts abs_system_valence _ hmem
    have hA := weighted_sum_bound (fun sys => (SYSTEM_DIMENSIONS sys).arousal)
      acts abs_system_arousal _ hmem
    have hD := weighted_sum_bound (fun sys => (SYSTEM_DIMENSIONS sys).dominance)
      acts abs_system_dominance _ hmem
    have habsV : |((systemsList.filter (fun sys => 0.1 < acts sys)).map
        (fun sys => (SYSTEM_DIMENSIONS sys).valence * acts sys)).sum /
        ((systemsList.filter (fun sys => 0.1 < acts sys)).map acts).sum| ≤ 1 := by
      rw [abs_div, abs_of_pos htot]
      exact (div_le_one htot).mpr hV
    have habsA : |((systemsList.filter (fun sys => 0.1 < acts sys)).map
        (fun sys => (SYSTEM_DIMENSIONS sys).arousal * acts sys)).sum /
        ((systemsList.filter (fun sys => 0.1 < acts sys)).map acts).sum| ≤ 1 := by
      rw [abs_div, abs_of_pos htot]
      exact (div_le_one htot).mpr hA
    have habsD : |((systemsList.filter (fun sys => 0.1 < acts sys)).map
        (fun sys => (SYSTEM_DIMENSIONS sys).dominance * acts sys)).sum /
        ((systemsList.filter (fun sys => 0.1 < acts sys)).map acts).sum| ≤ 1 := by
      rw [abs_div, abs_of_pos htot]
      exact (div_le_one htot).mpr hD
    obtain ⟨hv1, hv2⟩ := abs_le.mp habsV
    obtain ⟨ha1, ha2⟩ := abs_le.mp habsA
    obtain ⟨hd1, hd2⟩ := abs_le.mp habsD
    exact ⟨hv1, hv2, ha1, ha2, hd1, hd2⟩
  · rw [if_neg htot]
    rw [active_empty_of_total_nonpos acts htot]
    norm_num [inBounds]

/-- The clamped appraisal target always lies in the affect cube. -/
theorem to_dimensions_inBounds (ap : AppraisalResult) : inBounds ap.to_dimensions := by
  unfold AppraisalResult.to_dimensions inBounds
  dsimp only
  exact ⟨(clamp1_mem _).1, (clamp1_mem _).2, (clamp1_mem _).1, (clamp1_mem _).2,
    (clamp1_mem _).1, (clamp1_mem _).2⟩

/-- The contamination multiplier is nonnegative. -/
theorem resistanceFactor_nonneg (v c : ℚ) : 0 ≤ resistanceFactor v c := by
  unfold resistanceFactor
  split_ifs <;> norm_num

/-- C10: `update_affect` preserves the affect bounds for every appraisal,
because the target is clamped, the system influence is a weighted average
of in-cube coordinates, and the blend weight is capped into `[0, 1]`. -/
theorem c10_update_affect_preserves_bounds (s : AdvancedEmotionalState)
    (ap : AppraisalResult) (hcur : inBounds s.current_affect)
    (_hacts : ∀ sys, 0 ≤ s.system_activations sys ∧ s.system_activations sys ≤ 1)
    (_hi0 : 0 ≤ s.emotional_inertia) (hi1 : s.emotional_inertia ≤ 1) :
    inBounds (s.update_affect ap).current_affect := by
  have htarget := to_dimensions_inBounds ap
  have hinfl := systemInfluence_inBounds s.system_activations
  have hcomb : inBounds
      ((ap.to_dimensions).blend (systemInfluence s.system_activations) 0.4) :=
    blend_inBounds htarget hinfl (by norm_num) (by norm_num)
  have htr0 : 0 ≤ (1 - s.emotional_inertia) *
      resistanceFactor s.current_affect.valence
        ((ap.to_dimensions).blend (systemInfluence s.system_activations) 0.4).valence :=
    mul_nonneg (by linarith) (resistanceFactor_nonneg _ _)
  show inBounds (s.current_affect.blend
    ((ap.to_dimensions).blend (systemInfluence s.system_activations) 0.4)
    (min 1 ((1 - s.emotional_inertia) *
      resistanceFactor s.current_affect.valence
        ((ap.to_dimensions).blend (systemInfluence s.system_activations) 0.4).valence)))
  exact blend_inBounds hcur hcomb (le_min (by norm_num) htr0) (min_le_left _ _)

/-- C10 witness: bounds preservation evaluated on a fresh state and the
zero appraisal. -/
theorem c10_update_affect_preserves_bounds_witness :
    inBounds freshState.current_affect ∧
    (∀ sys, 0 ≤ freshState.system_activations sys ∧
      freshState.system_activations sys ≤ 1) ∧
    0 ≤ freshState.emotional_inertia ∧ freshState.emotional_inertia ≤ 1 ∧
    inBounds (freshState.update_affect zeroAppraisal).current_affect :=
  ⟨by norm_num [freshState, inBounds], fun _ => by norm_num [freshState],
   by norm_num [freshState], by norm_num [freshState],
   c10_update_affect_preserves_bounds freshState zeroAppraisal
     (by norm_num [freshState, inBounds]) (fun _ => by norm_num [freshState])
     (by norm_num [freshState]) (by norm_num [freshState])⟩

/-- The valence produced by `update_affect`, written as an explicit convex
combination of the previous valence and the combined target's valence. -/
theorem update_affect_valence (s : AdvancedEmotionalState) (ap : AppraisalResult) :
    (s.update_affect ap).current_affect.valence =
      s.current_affect.valence *
        (1 - min 1 ((1 - s.emotional_inertia) *
          resistanceFactor s.current_affect.valence
            (ap.to_dimensions.blend (systemInfluence s.system_activations) 0.4).valence)) +
      (ap.to_dimensions.blend (systemInfluence s.system_activations) 0.4).valence *
        min 1 ((1 - s.emotional_inertia) *
          resistanceFactor s.current_affect.valence
            (ap.to_dimensions.blend (systemInfluence s.system_activations) 0.4).valence) :=
  rfl

/-- C1: for two states identical except for the current valence (`-0.5`
versus `0.0`), updating with the same appraisal whose derived target
valence is `0.8` leaves the negative state with strictly lower post-update
valence; and in general, the effective blend weight for a
negative-to-positive attempt never exceeds the mirror-image
positive-to-negative weight (it is harder to improve mood than to worsen
it). -/
theorem c1_contamination_asymmetry :
    (∀ (ap : AppraisalResult) (a dmn bv ba bd i : ℚ)
       (acts : AffectiveSystem → ℚ) (cid1 cid2 : String)
       (la1 la2 : Option AppraisalResult),
      ap.to_dimensions.valence = 4/5 →
      (∀ sys, 0 ≤ acts sys ∧ acts sys ≤ 1) →
      0 ≤ i → i ≤ 1 →
      ((AdvancedEmotionalState.mk cid1 ⟨-1/2, a, dmn⟩ ⟨bv, ba, bd⟩ acts la1
          i).update_affect ap).current_affect.valence <
      ((AdvancedEmotionalState.mk cid2 ⟨0, a, dmn⟩ ⟨bv, ba, bd⟩ acts la2
          i).update_affect ap).current_affect.valence) ∧
    (∀ (v c i : ℚ), v < -3/10 → 0 < c → 0 ≤ i → i ≤ 1 →
      min 1 ((1 - i) * resistanceFactor v c) ≤
        min 1 ((1 - i) * resistanceFactor (-v) (-c))) := by
  constructor
  · intro ap a dmn bv ba bd i acts cid1 cid2 la1 la2 htv _hacts hi0 hi1
    rw [update_affect_valence, update_affect_valence]
    dsimp only
    obtain ⟨hiv1, hiv2, _⟩ := systemInfluence_inBounds acts
    have hCval : (ap.to_dimensions.blend (systemInfluence acts) 0.4).valence =
        ap.to_dimensions.valence * (1 - 0.4) + (systemInfluence acts).valence * 0.4 :=
      rfl
    have hCpos : 2/25 ≤ (ap.to_dimensions.blend (systemInfluence acts) 0.4).valence := by
      rw [hCval, htv]
      nlinarith
    have hrA : resistanceFactor (-1/2)
        (ap.to_dimensions.blend (systemInfluence acts) 0.4).valence = 2/5 := by
      unfold resistanceFactor
      rw [if_pos ⟨by norm_num, by linarith⟩]
      norm_num
    have hrB : resistanceFactor 0
        (ap.to_dimensions.blend (systemInfluence acts) 0.4).valence = 1 := by
      unfold resistanceFactor
      rw [if_neg (by rintro ⟨h, -⟩; norm_num at h),
        if_neg (by rintro ⟨h, -⟩; norm_num at h)]
    rw [hrA, hrB, mul_one]
    have hwA : min 1 ((1 - i) * (2/5)) = (1 - i) * (2/5) :=
      min_eq_right (by nlinarith)
    have hwB : min 1 (1 - i) = 1 - i := min_eq_right (by linarith)
    rw [hwA, hwB]
    have hCnn : (0 : ℚ) ≤ (ap.to_dimensions.blend (systemInfluence acts) 0.4).valence := by
      linarith
    nlinarith [mul_nonneg hCnn (by linarith : (0:ℚ) ≤ 1 - i)]
  · intro v c i hv hc hi0 hi1
    have hrA : resistanceFactor v c = 2/5 := by
      unfold resistanceFactor
      rw [if_pos ⟨by linarith, hc⟩]
      norm_num
    have hrB : resistanceFactor (-v) (-c) = 13/10 := by
      unfold resistanceFactor
      rw [if_neg (by rintro ⟨-, h⟩; linarith), if_pos ⟨by linarith, by linarith⟩]
      norm_num
    rw [hrA, hrB]
    exact min_le_min le_rfl (by nlinarith)

/-- C1 witness: both parts of the contamination asymmetry evaluated at a
concrete appraisal (target valence 0.8), inertia 0.3, and zero
activations. -/
theorem c1_contamination_asymmetry_witness :
    (AppraisalResult.mk 0 (4/5) 0 (4/5) 0 0 0 0 0 0).to_dimensions.valence = 4/5 ∧
    (∀ _sys : AffectiveSystem, 0 ≤ (0:ℚ) ∧ (0:ℚ) ≤ 1) ∧
    (0:ℚ) ≤ 3/10 ∧ (3/10:ℚ) ≤ 1 ∧
    ((AdvancedEmotionalState.mk "n" ⟨-1/2, 0, 0⟩ ⟨0, 0, 0⟩ (fun _ => 0) none
        (3/10)).update_affect
          (AppraisalResult.mk 0 (4/5) 0 (4/5) 0 0 0 0 0 0)).current_affect.valence <
      ((AdvancedEmotionalState.mk "z" ⟨0, 0, 0⟩ ⟨0, 0, 0⟩ (fun _ => 0) none
        (3/10)).update_affect
          (AppraisalResult.mk 0 (4/5) 0 (4/5) 0 0 0 0 0 0)).current_affect.valence ∧
    ((-1/2 : ℚ) < -3/10 ∧ (0:ℚ) < 1/2 ∧
      min 1 ((1 - (3/10:ℚ)) * resistanceFactor (-1/2) (1/2)) ≤
        min 1 ((1 - (3/10:ℚ)) * resistanceFactor (-(-1/2)) (-(1/2)))) :=
  ⟨by norm_num [AppraisalResult.to_dimensions, clamp1],
   fun _ => by norm_num, by norm_num, by norm_num,
   c1_contamination_asymmetry.1 (AppraisalResult.mk 0 (4/5) 0 (4/5) 0 0 0 0 0 0)
     0 0 0 0 0 (3/10) (fun _ => 0) "n" "z" none none
     (by norm_num [AppraisalResult.to_dimensions, clamp1])
     (fun _ => by norm_num) (by norm_num) (by norm_num),
   by norm_num, by norm_num,
   c1_contamination_asymmetry.2 (-1/2) (1/2) (3/10) (by norm_num) (by norm_num)
     (by norm_num) (by norm_num)⟩

end AdvancedEmotions
